import Mathlib

/-!
Verification of the KTL kernel thread library (src/include/atomic.hpp and
src/include/thread.h) against its specification. The C++ is shallowly
embedded: machine state touched by each primitive is passed and returned
explicitly, pointer values are modelled as naturals, NTSTATUS as integers.
-/

namespace ktl

/-! ## Atomic primitives (src/include/atomic.hpp) -/

/-- Conversion applied when the result of InterlockedExchange8 (a char) is
returned through the bool return type of interlocked_exchange: a nonzero
byte reads back as true. -/
def charToBool (c : Int) : Bool := c != 0

/-- Conversion static_cast of bool to char used on the stored value. -/
def boolToChar (b : Bool) : Int := if b then 1 else 0

/-- OS intrinsic InterlockedExchange8: given the current byte in the target
cell and the byte to store, returns (previous byte, new cell byte). -/
def InterlockedExchange8 (cell newByte : Int) : Int × Int := (cell, newByte)

/-- interlocked_exchange (atomic.hpp lines 9-13): stores new_value into the
single-byte flag target through InterlockedExchange8 and returns the flag
value that was previously there. State passing: target is the flag value
before the call; the result is (returned bool, flag value after the call). -/
def interlocked_exchange (target new_value : Bool) : Bool × Bool :=
  let r := InterlockedExchange8 (boolToChar target) (boolToChar new_value)
  (charToBool r.1, charToBool r.2)

/-- interlocked_swap (atomic.hpp lines 15-19), sequential (uninterleaved)
semantics: reads lhs into old_lhs, exchanges lhs with the current value of
rhs, then exchanges rhs with old_lhs. State is the pair of flag values. -/
def interlocked_swap (lhs rhs : Bool) : Bool × Bool :=
  let old_lhs := lhs
  let e1 := interlocked_exchange lhs rhs
  let lhs1 := e1.2
  let e2 := interlocked_exchange rhs old_lhs
  let rhs1 := e2.2
  (lhs1, rhs1)

/-- Memory of pointer-sized slots, address to stored pointer value. -/
def Mem : Type := Nat → Nat

/-- OS intrinsic InterlockedCompareExchangePointer: classic compare and
swap on the slot at addr. Returns (value previously in the slot, memory
after the call); the slot is overwritten with newPtr only when its
previous value equals expected. -/
def InterlockedCompareExchangePointer (mem : Mem) (addr newPtr expected : Nat) :
    Nat × Mem :=
  let old := mem addr
  if old = expected then
    (old, fun a => if a = addr then newPtr else mem a)
  else
    (old, mem)

/-- interlocked_compare_exchange_pointer (atomic.hpp lines 27-34): a direct
pass-through to InterlockedCompareExchangePointer on the slot ptr_place. -/
def interlocked_compare_exchange_pointer (mem : Mem) (addr newPtr expected : Nat) :
    Nat × Mem :=
  InterlockedCompareExchangePointer mem addr newPtr expected

/-- interlocked_swap_pointer (atomic.hpp lines 36-41), caller-observable
effect. The source signature takes the two pointers BY VALUE, as locals:
the body reads lhs into old_lhs and then calls the single-byte bool
overload interlocked_exchange(lhs, rhs) and interlocked_exchange(rhs,
old_lhs) on those locals, calls which do not even type-check at
instantiation (a pointer lvalue cannot bind to a bool reference). Even
granting the intended exchange on the locals, the locals die at return and
the function returns void, so the two handle fields of the caller are left
untouched. callerLhs and callerRhs are the caller fields before the call;
the result is those fields after the call. -/
def interlocked_swap_pointer (callerLhs callerRhs : Nat) : Nat × Nat :=
  let lhs := callerLhs
  let rhs := callerRhs
  let old_lhs := lhs
  let lhs1 := rhs
  let rhs1 := old_lhs
  let _ := (lhs, lhs1, rhs1)
  (callerLhs, callerRhs)

/-! ## Thread spawning (src/include/thread.h) -/

/-- IRQL at which pageable memory is allowed and threads normally run. -/
def PASSIVE_LEVEL : Nat := 0

/-- IRQL threshold at and above which page faults and blocking are illegal. -/
def DISPATCH_LEVEL : Nat := 2

/-- The two kernel memory pools a packed-argument record can come from. -/
inductive Pool
  | paged
  | nonPaged
deriving DecidableEq, Repr

/-- Pool chosen by worker_thread::pack_fn_with_args (thread.h lines
122-134) for the packed-argument record: paged when max_irql is strictly
below DISPATCH_LEVEL, non-paged otherwise. -/
def pack_fn_with_args (max_irql : Nat) : Pool :=
  if max_irql < DISPATCH_LEVEL then Pool.paged else Pool.nonPaged

/-- Caller-side events of one spawn, in program order. -/
inductive SpawnEvent
  | allocRecord (pool : Pool)
  | osCreate (accepted : Bool)
  | releaseGuard
deriving DecidableEq, Repr

/-- True exactly on record-allocation events. -/
def SpawnEvent.isAlloc : SpawnEvent → Bool
  | .allocRecord _ => true
  | _ => false

/-- True exactly on the native-thread-creation event. -/
def SpawnEvent.isOsCreate : SpawnEvent → Bool
  | .osCreate _ => true
  | _ => false

/-- Result of one run of the spawning call. trace: caller-side events in
order. thread_obj: the internal object returned (none models a null
PETHREAD-like object). spawnerOwnsAtExit: whether the unique_ptr
packed_args still owns the record when create_thread returns, so that its
destructor would free it. trampolineStarted: whether the OS accepted the
thread, handing the raw record pointer to a trampoline. -/
structure SpawnOutcome where
  trace : List SpawnEvent
  thread_obj : Option Unit
  spawnerOwnsAtExit : Bool
  trampolineStarted : Bool
deriving DecidableEq, Repr

/-- system_thread::create_thread (thread.h lines 216-227), line by line:
packed_args is built by pack_fn_with_args (the unique_ptr owns the new
record); create_thread_impl is asked to start a native thread on the
trampoline with the raw record pointer. create_thread_impl is declared in
thread.h line 229 but defined outside src; modelled from the spec: on
acceptance it returns a non-null object and the new thread (trampoline)
holds the record pointer, on rejection it returns null and neither starts
a thread nor takes ownership of the record. Then packed_args.release() on
line 225 runs UNCONDITIONALLY, so the unique_ptr never owns the record at
scope exit, whether or not the OS accepted. osAccepts models the OS
decision inside create_thread_impl. -/
def create_thread (max_irql : Nat) (osAccepts : Bool) : SpawnOutcome :=
  let pool := pack_fn_with_args max_irql
  let thread_obj : Option Unit := if osAccepts then some () else none
  ⟨[SpawnEvent.allocRecord pool, SpawnEvent.osCreate osAccepts,
    SpawnEvent.releaseGuard],
   thread_obj, false, osAccepts⟩

/-- io_thread::create_thread (thread.h lines 308-321): identical record
handling; additionally carries the io anchor object (modelled as a Nat)
through to create_thread_impl, which does not affect record ownership. -/
def io_create_thread (io_obj : Nat) (max_irql : Nat) (osAccepts : Bool) :
    SpawnOutcome :=
  let _ := io_obj
  create_thread max_irql osAccepts

/-- Hinted system_thread constructor (thread.h lines 180-186): delegates
to create_thread with the given max_irql. -/
def system_thread_hinted_ctor (max_irql : Nat) (osAccepts : Bool) : SpawnOutcome :=
  create_thread max_irql osAccepts

/-- Unhinted system_thread constructor (thread.h lines 188-196): delegates
to create_thread with PASSIVE_LEVEL. -/
def system_thread_default_ctor (osAccepts : Bool) : SpawnOutcome :=
  create_thread PASSIVE_LEVEL osAccepts

/-- Hinted io_thread constructor (thread.h lines 277-288). -/
def io_thread_hinted_ctor (io_obj : Nat) (max_irql : Nat) (osAccepts : Bool) :
    SpawnOutcome :=
  io_create_thread io_obj max_irql osAccepts

/-- Unhinted io_thread constructor (thread.h lines 290-298): delegates with
PASSIVE_LEVEL. -/
def io_thread_default_ctor (io_obj : Nat) (osAccepts : Bool) : SpawnOutcome :=
  io_create_thread io_obj PASSIVE_LEVEL osAccepts

/-- Total number of times the packed record is freed over the life of one
spawn: once by the spawner-side unique_ptr destructor if it still owns the
record at scope exit, plus once by the trampoline if one was started (the
trampoline frees the record exactly once, see the trampoline model). -/
def record_free_count (o : SpawnOutcome) : Nat :=
  (if o.spawnerOwnsAtExit then 1 else 0) +
    (if o.trampolineStarted then 1 else 0)

/-! ### Trampoline (worker_thread::invoke_in_thread, thread.h 149-167) -/

/-- Events on the new thread, in order. makeCall records the unpacked
record content handed to the derived make_call hook; beforeExit records
the value handed to before_exit (none for the void-result kinds);
destroyRecord is the destruction of the packed-argument record. -/
inductive TrampEvent
  | makeCall (unpacked : Int)
  | beforeExit (result : Option Int)
  | destroyRecord
deriving DecidableEq, Repr

/-- invoke_with_unpacked_args (thread.h lines 163-167) for a kind whose
make_call returns NTSTATUS (system_thread, guarded_system_thread). The
by-value unique_ptr parameter args_guard owns the record; make_call runs
on the unpacked content; the parameter is destroyed when the function
returns (callee-destroyed parameters on the target ABI), which frees the
record. Returns (make_call result, events emitted by this call). -/
def invoke_with_unpacked_args_status (mc : Int → Int) (record : Int) :
    Int × List TrampEvent :=
  let result := mc record
  (result, [TrampEvent.makeCall record, TrampEvent.destroyRecord])

/-- invoke_with_unpacked_args for a kind whose make_call returns void
(io_thread). The record is freed when this call returns, as above. -/
def invoke_with_unpacked_args_void (mc : Int → Unit) (record : Int) :
    List TrampEvent :=
  let _ := mc record
  [TrampEvent.makeCall record, TrampEvent.destroyRecord]

/-- invoke_in_thread (thread.h lines 149-161), non-void branch of the if
constexpr: before_exit receives the result of invoke_with_unpacked_args.
The record was already freed when invoke_with_unpacked_args returned. -/
def invoke_in_thread_status (mc : Int → Int) (record : Int) : List TrampEvent :=
  let r := invoke_with_unpacked_args_status mc record
  r.2 ++ [TrampEvent.beforeExit (some r.1)]

/-- invoke_in_thread, void branch (thread.h lines 157-159): the statement
calling invoke_with_unpacked_args completes (freeing the record at the end
of that full statement on any parameter-destruction convention), then
before_exit() runs with no value. -/
def invoke_in_thread_void (mc : Int → Unit) (record : Int) : List TrampEvent :=
  invoke_with_unpacked_args_void mc record ++ [TrampEvent.beforeExit none]

/-! ### Exception policy (thread.h 206-256) -/

/-- NTSTATUS success value. -/
def STATUS_SUCCESS : Int := 0

/-- NTSTATUS code used when a foreign exception reaches the catch-all. -/
def STATUS_UNHANDLED_EXCEPTION : Int := 0xC0000144

/-- An exception escaping the user callable: either a ktl::exception
carrying an NTSTATUS retrievable via code(), or any other exception. -/
inductive CppException
  | withStatus (code : Int)
  | foreign
deriving DecidableEq, Repr

/-- One run of the user callable: normal return or a raised exception. -/
def CallOutcome : Type := Except CppException Unit

/-- system_thread::make_call (thread.h lines 208-211): runs the callable
and returns STATUS_SUCCESS when it returns normally; an exception raised
by the callable propagates (Except.error). -/
def system_make_call (run : CallOutcome) : Except CppException Int :=
  Except.map (fun _ => STATUS_SUCCESS) run

/-- guarded_system_thread::make_call (thread.h lines 244-255): status
starts at STATUS_SUCCESS; the base make_call runs inside a try block; a
ktl::exception is caught and its code() stored; any other exception is
caught by the catch-all and STATUS_UNHANDLED_EXCEPTION stored; the status
is returned. The total (non-Except) return type records that no exception
leaves this function. -/
def guarded_make_call (run : CallOutcome) : Int :=
  match system_make_call run with
  | Except.ok s => s
  | Except.error (CppException.withStatus c) => c
  | Except.error CppException.foreign => STATUS_UNHANDLED_EXCEPTION

/-! ### Sleep and stall helpers (thread.h 28-54) -/

/-- this_thread::sleep_until (thread.h lines 28-37). Times are clock ticks
of the same clock; now is the value of Clock::now() read inside the call.
Returns the duration passed on to sleep_for (which invokes the OS delay
primitive), or none when the function returns without sleeping. -/
def sleep_until (sleep_time now : Int) : Option Int :=
  if sleep_time ≤ now then none else some (sleep_time - now)

/-- this_thread::stall_until (thread.h lines 45-54), same shape: returns
the duration passed on to stall_for (which invokes the OS busy-wait
primitive), or none when the function returns without stalling. -/
def stall_until (stall_time now : Int) : Option Int :=
  if stall_time ≤ now then none else some (stall_time - now)

end ktl

/-! ## Theorems for the claims -/

/-- Claim C7: for every single-byte flag with initial value v0 and every new
value v1, interlocked_exchange(flag, v1) stores v1 into the flag and
returns v0, the previous value of the flag. -/
theorem interlocked_exchange_spec (v0 v1 : Bool) :
    ktl.interlocked_exchange v0 v1 = (v0, v1) := by
  cases v0 <;> cases v1 <;> decide

/-- Claim C8: for every pair of boolean flags holding (x, y), a sequential
call to interlocked_swap(lhs, rhs) leaves lhs = y and rhs = x. -/
theorem interlocked_swap_spec (x y : Bool) :
    ktl.interlocked_swap x y = (y, x) := by
  cases x <;> cases y <;> decide

/-- Claim C6: interlocked_compare_exchange_pointer writes newPtr into the
slot if and only if the pre-call slot value equals expected, always
returns the pre-call value, and leaves every other slot unchanged. -/
theorem compare_exchange_pointer_cas (mem : ktl.Mem) (addr newPtr expected : Nat) :
    (ktl.interlocked_compare_exchange_pointer mem addr newPtr expected).1 = mem addr ∧
    (mem addr = expected →
      (ktl.interlocked_compare_exchange_pointer mem addr newPtr expected).2 addr = newPtr) ∧
    (mem addr ≠ expected →
      (ktl.interlocked_compare_exchange_pointer mem addr newPtr expected).2 addr = mem addr) ∧
    (∀ a, a ≠ addr →
      (ktl.interlocked_compare_exchange_pointer mem addr newPtr expected).2 a = mem a) := by
  unfold ktl.interlocked_compare_exchange_pointer ktl.InterlockedCompareExchangePointer
  by_cases h : mem addr = expected <;> simp [h]
  intro a ha hab
  exact absurd hab ha

/-- Concrete run of compare_exchange_pointer_cas: slot 0 of a memory holding
5 everywhere, exchanged with 7 expecting 5 (hit) and expecting 6 (miss). -/
theorem compare_exchange_pointer_cas_witness :
    (ktl.interlocked_compare_exchange_pointer (fun _ => 5) 0 7 5).1 = 5 ∧
    (ktl.interlocked_compare_exchange_pointer (fun _ => 5) 0 7 5).2 0 = 7 ∧
    (ktl.interlocked_compare_exchange_pointer (fun _ => 5) 0 7 6).2 0 = 5 ∧
    (ktl.interlocked_compare_exchange_pointer (fun _ => 5) 0 7 5).2 3 = 5 :=
  ⟨(compare_exchange_pointer_cas (fun _ => 5) 0 7 5).1,
   (compare_exchange_pointer_cas (fun _ => 5) 0 7 5).2.1 rfl,
   (compare_exchange_pointer_cas (fun _ => 5) 0 7 6).2.2.1 (by decide),
   (compare_exchange_pointer_cas (fun _ => 5) 0 7 5).2.2.2 3 (by decide)⟩

/-- Claim C3 (code behaviour at the failing input): interlocked_swap_pointer
called on caller fields holding 16 and 32 leaves both fields unchanged; in
particular the fields are NOT exchanged as the claim states. The source
takes the pointers by value and routes them through the single-byte bool
exchange, so the caller fields cannot be modified. -/
theorem swap_pointer_leaves_slots_unchanged :
    ktl.interlocked_swap_pointer 16 32 = (16, 32) ∧
    ktl.interlocked_swap_pointer 16 32 ≠ (32, 16) := by
  decide

/-- Claim C1: for every spawn through system_thread or io_thread, the
packed-argument record is allocated from the paged pool iff the hint is
strictly below DISPATCH_LEVEL and from the non-paged pool iff the hint is
at or above DISPATCH_LEVEL; the allocation (with its pool already decided)
is the unique allocation event of the spawn and happens strictly before
the native-creation event, i.e. before any native handle exists. -/
theorem pool_selection_correct (max_irql : Nat) (osAccepts : Bool) (io_obj : Nat) :
    (ktl.pack_fn_with_args max_irql = ktl.Pool.paged ↔ max_irql < ktl.DISPATCH_LEVEL) ∧
    (ktl.pack_fn_with_args max_irql = ktl.Pool.nonPaged ↔ ktl.DISPATCH_LEVEL ≤ max_irql) ∧
    (ktl.create_thread max_irql osAccepts).trace.filter ktl.SpawnEvent.isAlloc
      = [ktl.SpawnEvent.allocRecord (ktl.pack_fn_with_args max_irql)] ∧
    ((ktl.create_thread max_irql osAccepts).trace.takeWhile
        (fun e => !e.isOsCreate)).filter ktl.SpawnEvent.isAlloc
      = [ktl.SpawnEvent.allocRecord (ktl.pack_fn_with_args max_irql)] ∧
    (ktl.io_create_thread io_obj max_irql osAccepts).trace.filter ktl.SpawnEvent.isAlloc
      = [ktl.SpawnEvent.allocRecord (ktl.pack_fn_with_args max_irql)] ∧
    ((ktl.io_create_thread io_obj max_irql osAccepts).trace.takeWhile
        (fun e => !e.isOsCreate)).filter ktl.SpawnEvent.isAlloc
      = [ktl.SpawnEvent.allocRecord (ktl.pack_fn_with_args max_irql)] := by
  refine ⟨?_, ?_, rfl, rfl, rfl, rfl⟩ <;>
    unfold ktl.pack_fn_with_args <;>
    split <;> simp_all [ktl.DISPATCH_LEVEL]

/-- Claim C2 behaviour at the failing input: when the OS rejects native
thread creation (create_thread_impl returns null), system_thread or
io_thread create_thread returns a null object (wrapper reports absent
identity) but the packed record is freed ZERO times, because
packed_args.release() runs unconditionally on thread.h lines 225 and 319:
the record leaks instead of being freed exactly once. On the success path
the count is the expected 1. -/
theorem create_thread_leaks_on_failure :
    (ktl.create_thread ktl.PASSIVE_LEVEL false).thread_obj = none ∧
    ktl.record_free_count (ktl.create_thread ktl.PASSIVE_LEVEL false) = 0 ∧
    ktl.record_free_count (ktl.create_thread ktl.PASSIVE_LEVEL true) = 1 ∧
    (ktl.io_create_thread 7 ktl.PASSIVE_LEVEL false).thread_obj = none ∧
    ktl.record_free_count (ktl.io_create_thread 7 ktl.PASSIVE_LEVEL false) = 0 := by
  decide

/-- Claim C4 counterexample: in the void-result trampoline instantiation
(io_thread), the packed record is destroyed strictly BEFORE before_exit
runs, refuting the claimed order (make_call, then before_exit, then
destroy). The statement calling invoke_with_unpacked_args, whose by-value
unique_ptr owns the record, completes before the separate before_exit()
statement starts, on any parameter-destruction convention. -/
theorem trampoline_destroys_before_exit_hook :
    (ktl.invoke_in_thread_void (fun _ => ()) 0).indexOf ktl.TrampEvent.destroyRecord
      < (ktl.invoke_in_thread_void (fun _ => ()) 0).indexOf
          (ktl.TrampEvent.beforeExit none) := by
  decide

/-- Claim C4 as amended: for every derived make_call and record content, in
both trampoline instantiations (NTSTATUS-returning and void-returning),
make_call is invoked with the unpacked record content, before_exit
receives exactly the result of make_call (or no value for the void kind),
and the record is destroyed exactly once, after make_call has run and
before before_exit runs; before_exit is the final trampoline event. The
two trace equalities pin the event order: make_call first, then the
destruction of the record, then before_exit. -/
theorem trampoline_destroy_exactly_once (mc : Int → Int) (mcv : Int → Unit)
    (record : Int) :
    (ktl.invoke_in_thread_status mc record).count ktl.TrampEvent.destroyRecord = 1 ∧
    (ktl.invoke_in_thread_void mcv record).count ktl.TrampEvent.destroyRecord = 1 ∧
    ktl.TrampEvent.makeCall record ∈ ktl.invoke_in_thread_status mc record ∧
    ktl.TrampEvent.beforeExit (some (mc record)) ∈ ktl.invoke_in_thread_status mc record ∧
    ktl.TrampEvent.makeCall record ∈ ktl.invoke_in_thread_void mcv record ∧
    ktl.TrampEvent.beforeExit none ∈ ktl.invoke_in_thread_void mcv record ∧
    (ktl.invoke_in_thread_status mc record).getLast?
      = some (ktl.TrampEvent.beforeExit (some (mc record))) ∧
    (ktl.invoke_in_thread_void mcv record).getLast?
      = some (ktl.TrampEvent.beforeExit none) ∧
    ktl.invoke_in_thread_status mc record
      = [ktl.TrampEvent.makeCall record, ktl.TrampEvent.destroyRecord,
         ktl.TrampEvent.beforeExit (some (mc record))] ∧
    ktl.invoke_in_thread_void mcv record
      = [ktl.TrampEvent.makeCall record, ktl.TrampEvent.destroyRecord,
         ktl.TrampEvent.beforeExit none] := by
  refine ⟨?_, ?_, ?_, ?_, ?_, ?_, rfl, rfl, rfl, rfl⟩ <;>
    simp [ktl.invoke_in_thread_status, ktl.invoke_in_thread_void,
      ktl.invoke_with_unpacked_args_status, ktl.invoke_with_unpacked_args_void,
      List.count_cons]

/-- Claim C5: guarded_system_thread make_call returns STATUS_SUCCESS when
the callable returns normally, the carried status code when the callable
raises a ktl::exception carrying one, and STATUS_UNHANDLED_EXCEPTION when
it raises any other exception; the function is total on every outcome of
the callable, so no exception propagates out of make_call. -/
theorem guarded_make_call_status (c : Int) :
    ktl.guarded_make_call (Except.ok ()) = ktl.STATUS_SUCCESS ∧
    ktl.guarded_make_call (Except.error (ktl.CppException.withStatus c)) = c ∧
    ktl.guarded_make_call (Except.error ktl.CppException.foreign)
      = ktl.STATUS_UNHANDLED_EXCEPTION :=
  ⟨rfl, rfl, rfl⟩

/-- Claim C9: the unhinted system_thread and io_thread constructors are
definitionally the hinted constructors called with PASSIVE_LEVEL, and the
packed record is then allocated from the paged pool. -/
theorem default_ctor_passive_level (osAccepts : Bool) (io_obj : Nat) :
    ktl.system_thread_default_ctor osAccepts
      = ktl.system_thread_hinted_ctor ktl.PASSIVE_LEVEL osAccepts ∧
    ktl.io_thread_default_ctor io_obj osAccepts
      = ktl.io_thread_hinted_ctor io_obj ktl.PASSIVE_LEVEL osAccepts ∧
    (ktl.system_thread_default_ctor osAccepts).trace.filter ktl.SpawnEvent.isAlloc
      = [ktl.SpawnEvent.allocRecord ktl.Pool.paged] ∧
    (ktl.io_thread_default_ctor io_obj osAccepts).trace.filter ktl.SpawnEvent.isAlloc
      = [ktl.SpawnEvent.allocRecord ktl.Pool.paged] :=
  ⟨rfl, rfl, rfl, rfl⟩

/-- Claim C10: when the target time point is not after now, sleep_until
and stall_until return immediately without invoking the OS delay or stall
primitive; when it is strictly in the future, they wait for exactly the
remaining duration, target minus now. -/
theorem sleep_stall_until_immediate (t now : Int) :
    (t ≤ now → ktl.sleep_until t now = none ∧ ktl.stall_until t now = none) ∧
    (now < t → ktl.sleep_until t now = some (t - now) ∧
      ktl.stall_until t now = some (t - now)) := by
  unfold ktl.sleep_until ktl.stall_until
  constructor
  · intro h
    simp [h]
  · intro h
    rw [if_neg (by omega)]
    exact ⟨rfl, rfl⟩

/-- Concrete run of sleep_stall_until_immediate: a target 2 ticks in the
past returns without waiting, a target 2 ticks in the future waits 2. -/
theorem sleep_stall_until_immediate_witness :
    ktl.sleep_until 3 5 = none ∧ ktl.stall_until 3 5 = none ∧
    ktl.sleep_until 7 5 = some 2 ∧ ktl.stall_until 7 5 = some 2 := by
  obtain ⟨h1, h2⟩ := (sleep_stall_until_immediate 3 5).1 (by decide)
  obtain ⟨h3, h4⟩ := (sleep_stall_until_immediate 7 5).2 (by decide)
  exact ⟨h1, h2, h3, h4⟩
